import Mathlib

/-!
Verification of the semantic_search backend (Flask + OpenAI + Pinecone).

The development shallowly embeds the Python services of the repository:

* `document_service.py` — chunk splitting (`create_chunks`) and parallel
  document loading (`process_single_document`, `process_documents_parallel`);
* `bootstrap_service.py` — the ingestion pipeline (`check_embedding_status`,
  `create_embeddings_batch`, `process_chunks_to_vectors`, vector building);
* `search_service.py` — the cached search path (`_execute_search`) and
  `health_check`;
* `search_routes.py` — the `POST /search/` route.

Python strings that are sliced are modelled as `List Char`; Python dicts as
association lists over `PyVal`; raised exceptions as `Except PyErr`; external
services (OpenAI embeddings, the Pinecone index, the filesystem) as function
parameters.  Wall-clock instants are an explicit integer parameter.
-/

/-- Scalar Python values that occur in the metadata dicts of the repository. -/
inductive PyVal where
  | s : String → PyVal
  | txt : List Char → PyVal
  | i : Int → PyVal
  | b : Bool → PyVal
  deriving DecidableEq, Repr

/-- Python exceptions that the embedded code can raise. -/
inductive PyErr where
  | typeError : String → PyErr
  | keyError : String → PyErr
  | attributeError : String → PyErr
  | nameError : String → PyErr
  | exc : String → PyErr
  deriving DecidableEq, Repr

/-- `str(e)` for a raised exception (used by the logging / error responses). -/
def pyErrMsg : PyErr → String
  | .typeError m => m
  | .keyError m => m
  | .attributeError m => m
  | .nameError m => m
  | .exc m => m

/-- A Python dict of scalars, as an association list with unique keys. -/
abbrev PyDict := List (String × PyVal)

/-- `d[k] = v` on a dict: replace the binding in place if the key is present
(CPython keeps the original position), otherwise append it. -/
def dictSet (d : PyDict) (k : String) (v : PyVal) : PyDict :=
  if d.any (fun p => p.1 == k) then
    d.map (fun p => if p.1 == k then (k, v) else p)
  else d ++ [(k, v)]

/-- `d.get(k)` on a dict. -/
def dictGet (d : PyDict) (k : String) : Option PyVal :=
  (d.find? (fun p => p.1 == k)).map (fun p => p.2)

/-- `d.get(k, dflt)` on a dict. -/
def dictGetD (d : PyDict) (k : String) (dflt : PyVal) : PyVal :=
  (dictGet d k).getD dflt

/-!  Python slice semantics (step 1): `s[a:b]` with possibly negative bounds. -/

/-- Effective index of a slice bound on a sequence of length `n`:
negative indices count from the end; results are clamped into `[0, n]`. -/
def sliceBound (n : Nat) (i : Int) : Nat :=
  if i < 0 then ((n : Int) + i).toNat else min i.toNat n

/-- `s[a:b]` for a Python string held as a list of characters. -/
def pySlice (s : List Char) (a b : Int) : List Char :=
  (s.take (sliceBound s.length b)).drop (sliceBound s.length a)

/-!  `DocumentService.create_chunks` (document_service.py lines 101-136). -/

/-- A chunk dict as built by `create_chunks`: keys `chunk_id`, `content`,
`metadata`. -/
structure Chunk where
  chunk_id : String
  content : List Char
  metadata : PyDict
  deriving DecidableEq, Repr

/-- `chunk[key]` for the dicts built by `create_chunks`, which carry exactly
the keys `chunk_id`, `content` and `metadata`; any other key raises
`KeyError` (modelled by `none`). -/
inductive ChunkField where
  | id : String → ChunkField
  | text : List Char → ChunkField
  | meta : PyDict → ChunkField
  deriving DecidableEq

def chunkItem (c : Chunk) (key : String) : Option ChunkField :=
  if key = "chunk_id" then some (.id c.chunk_id)
  else if key = "content" then some (.text c.content)
  else if key = "metadata" then some (.meta c.metadata)
  else none

/-- The while-loop of `create_chunks`.  At the top of each iteration the
loop variable `start` equals the previous `end`, so it advances by
`chunk_size` per iteration; the fuel `text.length + 1` therefore covers every
run with `chunk_size ≥ 1` (with `chunk_size = 0` the Python loop diverges,
which is outside this model).  Mirrors document_service.py lines 108-129:
`end = start + chunk_size` is computed BEFORE the back-step
`start = start - chunk_overlap`, and the back-stepped start (which can be
negative, hence the Python slice semantics) is what is recorded as
`chunk_start` and used to slice the text. -/
def create_chunks_loop (ids : Nat → String) (metadata : PyDict) (text : List Char)
    (chunk_size chunk_overlap : Nat) : Nat → Nat → Nat → List Chunk
  | 0, _, _ => []
  | fuel + 1, start, chunk_index =>
    if start < text.length then
      let endPos : Nat := start + chunk_size
      let bstart : Int := if 0 < start then (start : Int) - (chunk_overlap : Int) else (start : Int)
      let chunk : Chunk :=
        { chunk_id := ids chunk_index
          content := pySlice text bstart (endPos : Int)
          metadata :=
            dictSet (dictSet (dictSet (dictSet metadata
              "chunk_index" (.i chunk_index))
              "is_first_chunk" (.b (chunk_index == 0)))
              "chunk_start" (.i bstart))
              "chunk_end" (.i (endPos : Int)) }
      chunk :: create_chunks_loop ids metadata text chunk_size chunk_overlap fuel endPos (chunk_index + 1)
    else []

/-- `DocumentService.create_chunks(text, metadata)`; `ids` supplies the value
of `str(uuid.uuid4())` for each call, numbered by chunk index (the source
draws a fresh random UUID per chunk per run). -/
def create_chunks (ids : Nat → String) (metadata : PyDict) (text : List Char)
    (chunk_size chunk_overlap : Nat) : List Chunk :=
  create_chunks_loop ids metadata text chunk_size chunk_overlap (text.length + 1) 0 0

/-- The `chunk_start` metadata entries of a chunk list. -/
def startsOf (l : List Chunk) : List (Option PyVal) :=
  l.map (fun c => dictGet c.metadata "chunk_start")

/-- The `chunk_index` metadata entries of a chunk list. -/
def indicesOf (l : List Chunk) : List (Option PyVal) :=
  l.map (fun c => dictGet c.metadata "chunk_index")

/-- The `is_first_chunk` metadata entries of a chunk list. -/
def firstFlagsOf (l : List Chunk) : List (Option PyVal) :=
  l.map (fun c => dictGet c.metadata "is_first_chunk")

/-!  `BootstrapService` (bootstrap_service.py). -/

/-- A Pinecone vector as built at bootstrap_service.py lines 85-93. -/
structure PineVector where
  id : String
  values : List Int
  metadata : PyDict
  deriving DecidableEq, Repr

/-- Lines 85-93: the vector for one `(chunk, embedding)` pair; its metadata is
`{**chunk["metadata"], "content": chunk["content"], "processed_at": time.time()}`
with the processing instant passed in as `now`. -/
def mkVector (now : Int) (c : Chunk) (e : List Int) : PineVector :=
  { id := c.chunk_id
    values := e
    metadata := dictSet (dictSet c.metadata "content" (.txt c.content)) "processed_at" (.i now) }

/-- `check_embedding_status` (bootstrap_service.py lines 34-41): fetch the id
from the index; a non-empty `result.vectors` means the embedding exists; ANY
exception is caught, logged, and turned into `False`. -/
def check_embedding_status (fetch : String → Except String (List String)) (chunk_id : String) : Bool :=
  match fetch chunk_id with
  | .ok vs => !vs.isEmpty
  | .error _ => false

/-- `create_embeddings_batch` (lines 44-55): one batched embedding call; on
success the embeddings are returned in order, on failure the exception is
logged and re-raised. -/
def create_embeddings_batch (embed : List (List Char) → Except PyErr (List (List Int)))
    (texts : List (List Char)) : Except PyErr (List (List Int)) :=
  match embed texts with
  | .ok r => .ok r
  | .error e => .error e

/-- The for-loop at lines 84-93: each iteration rebinds the local `vector`;
nothing is appended inside the loop, so only the final binding survives. -/
def lastVectorOfBatch (now : Int) (pairs : List (Chunk × List Int)) : Option PineVector :=
  pairs.foldl (fun _ p => some (mkVector now p.1 p.2)) none

/-- The try-block at lines 78-97 for one batch: embed the new texts, build a
vector per `(chunk, embedding)` pair, then execute `vectors.append(vector)` —
which sits OUTSIDE the for-loop (line 94 is indented at the level of the
`for` at line 84), so only the vector of the last pair is appended; if the
loop never ran, `vector` is unbound (`NameError`).  Errors raised here are
caught by the handler at lines 99-101. -/
def tryBatch (embed : List (List Char) → Except PyErr (List (List Int))) (now : Int)
    (new_chunks : List Chunk) (new_chunks_texts : List (List Char)) :
    Except PyErr (List PineVector) :=
  if new_chunks_texts.isEmpty then .ok []
  else
    match create_embeddings_batch embed new_chunks_texts with
    | .error e => .error e
    | .ok embeddings =>
      match lastVectorOfBatch now (new_chunks.zip embeddings) with
      | some v => .ok [v]
      | none => .error (.nameError "name vector is not defined")

/-- Python slicing `chunks[i : i + batch_size]` over the whole list, i.e. the
batches walked by `range(0, len(chunks), batch_size)` (lines 61-62).  The fuel
equals the list length, which covers every `batch_size ≥ 1` (Python raises
`ValueError` on a zero step, outside this model). -/
def batchesOfGo (batch_size : Nat) : Nat → List Chunk → List (List Chunk)
  | _, [] => []
  | 0, _ => []
  | fuel + 1, xs => xs.take batch_size :: batchesOfGo batch_size fuel (xs.drop batch_size)

def batchesOf (batch_size : Nat) (chunks : List Chunk) : List (List Chunk) :=
  batchesOfGo batch_size chunks.length chunks

/-- The per-chunk selection of lines 68-73 with the outcome of the existence
check supplied as `check`: chunks whose check is false are collected as
`new_chunks`, in order. -/
def selectNew (check : String → Bool) (batch : List Chunk) : List Chunk :=
  batch.filter (fun c => !check c.chunk_id)

/-- The chunks the selection of lines 68-73 skips (the `else` branch). -/
def skippedOf (check : String → Bool) (batch : List Chunk) : List Chunk :=
  batch.filter (fun c => check c.chunk_id)

/-- The batch loop of `process_chunks_to_vectors` (lines 61-102) with the
per-chunk selection outcome supplied as `check` and the batch texts taken
from the chunks `content`.  As actually written, the selection raises before
this stage is reached (see `process_chunks_to_vectors` below); this variant
exposes the behaviour of the remaining stages: empty selection skips the
batch (lines 75-76), and any exception inside the try (in particular an
embedding-batch failure re-raised by `create_embeddings_batch`) is caught at
lines 99-101, logged, and the loop CONTINUES with the next batch. -/
def processBatchesLoop (embed : List (List Char) → Except PyErr (List (List Int)))
    (check : String → Bool) (now : Int) :
    List (List Chunk) → List PineVector → List PineVector
  | [], vectors => vectors
  | batch :: rest, vectors =>
    let new_chunks := selectNew check batch
    let new_chunks_texts := new_chunks.map (fun c => c.content)
    if new_chunks.isEmpty then
      processBatchesLoop embed check now rest vectors
    else
      match tryBatch embed now new_chunks new_chunks_texts with
      | .ok appended => processBatchesLoop embed check now rest (vectors ++ appended)
      | .error _ => processBatchesLoop embed check now rest vectors

def process_batches (embed : List (List Char) → Except PyErr (List (List Int)))
    (check : String → Bool) (now : Int) (batch_size : Nat) (chunks : List Chunk) :
    List PineVector :=
  processBatchesLoop embed check now (batchesOf batch_size chunks) []

/-- Line 69 as written:
`await self.check_embedding_status(chunk["chunk_id"])` invokes a method
declared as `check_embedding_status(self, chunk_id, index)` with the required
positional argument `index` missing, so Python raises `TypeError` at the call
site, before any fetch happens; the loop at lines 68-73 is not inside a
try-block, so the exception propagates out of `process_chunks_to_vectors`. -/
def line69CheckCall (_c : Chunk) : Except PyErr Bool :=
  .error (.typeError "check_embedding_status missing 1 required positional argument: index")

/-- Line 71 as written: `chunk["context"]` — the chunk dicts built by
`create_chunks` carry the keys `chunk_id`, `content` and `metadata` only, so
this raises `KeyError: context`. -/
def line71Text (c : Chunk) : Except PyErr (List Char) :=
  match chunkItem c "context" with
  | some (.text t) => .ok t
  | _ => .error (.keyError "context")

/-- The selection loop of lines 68-73, as written. -/
def selectLoopAsWritten : List Chunk → List Chunk × List (List Char) →
    Except PyErr (List Chunk × List (List Char))
  | [], acc => .ok acc
  | c :: rest, (ncs, nts) =>
    match line69CheckCall c with
    | .error e => .error e
    | .ok exists_already =>
      if !exists_already then
        match line71Text c with
        | .error e => .error e
        | .ok t => selectLoopAsWritten rest (ncs ++ [c], nts ++ [t])
      else selectLoopAsWritten rest (ncs, nts)

/-- `process_chunks_to_vectors` (lines 57-103) as written: for every nonempty
batch the selection raises `TypeError` at its first chunk (see
`line69CheckCall`), which propagates out of the function — the fetch is never
consulted, no chunk is ever skipped or embedded, and the bootstrap run
aborts (`bootstrap`, lines 188-225, re-raises). -/
def processChunksGo (embed : List (List Char) → Except PyErr (List (List Int))) (now : Int) :
    List (List Chunk) → List PineVector → Except PyErr (List PineVector)
  | [], vectors => .ok vectors
  | batch :: rest, vectors =>
    match selectLoopAsWritten batch ([], []) with
    | .error e => .error e
    | .ok (new_chunks, new_chunks_texts) =>
      if new_chunks.isEmpty then processChunksGo embed now rest vectors
      else
        match tryBatch embed now new_chunks new_chunks_texts with
        | .ok appended => processChunksGo embed now rest (vectors ++ appended)
        | .error _ => processChunksGo embed now rest vectors

def process_chunks_to_vectors (embed : List (List Char) → Except PyErr (List (List Int)))
    (now : Int) (batch_size : Nat) (chunks : List Chunk) : Except PyErr (List PineVector) :=
  processChunksGo embed now (batchesOf batch_size chunks) []

/-- `upsert_vectors_batch` (lines 106-120): an empty batch is skipped
(returns `False`), otherwise the batch is upserted (`True`); an upsert
exception is logged and re-raised (modelled by the `upsert` parameter). -/
def upsert_vectors_batch (upsert : List PineVector → Except PyErr Unit)
    (vectors : List PineVector) : Except PyErr Bool :=
  if vectors.isEmpty then .ok false
  else
    match upsert vectors with
    | .ok _ => .ok true
    | .error e => .error e

/-!  `DocumentService` document loading (document_service.py lines 53-99). -/

/-- A catalog record from metadata.json; it is matched by its `filename` key
(lifted to a field), the remaining keys are opaque. -/
structure CatalogEntry where
  filename : String
  fields : PyDict
  deriving DecidableEq

/-- The `{content, metadata}` dict returned by `process_single_document`. -/
structure PyDocument where
  content : List Char
  metadata : CatalogEntry
  deriving DecidableEq

/-- `filename.endswith(".pdf")` (lines 56 and 78), over the character
lists. -/
def pyEndsWith (s suffix : String) : Bool :=
  suffix.toList.isSuffixOf s.toList

/-- `process_single_document` (lines 53-72): skip non-pdf names; look up the
catalog entry whose `filename` equals the name exactly
(`next((m for m in metadata if m["filename"] == filename), None)`) and skip
the document when there is none; extract the text, and on ANY exception
(corrupt file: `load_pdf_content` re-raises, lines 49-51) return `None`,
dropping just this document. -/
def process_single_document (load_pdf : String → Except String (List Char)) (pdf_dir : String)
    (catalog : List CatalogEntry) (filename : String) : Option PyDocument :=
  if !(pyEndsWith filename ".pdf") then none
  else
    match catalog.find? (fun m => m.filename == filename) with
    | none => none
    | some doc_metadata =>
      match load_pdf (pdf_dir ++ "/" ++ filename) with
      | .ok content => some { content := content, metadata := doc_metadata }
      | .error _ => none

/-- `process_documents_parallel` (lines 74-99): list the `.pdf` names, map
`process_single_document` over them (the thread pool `executor.map` preserves
input order and joins on all workers), and keep the non-`None` results. -/
def process_documents_parallel (load_pdf : String → Except String (List Char)) (pdf_dir : String)
    (catalog : List CatalogEntry) (listing : List String) : List PyDocument :=
  (listing.filter (fun f => pyEndsWith f ".pdf")).filterMap
    (process_single_document load_pdf pdf_dir catalog)

/-!  `SearchService` (search_service.py). -/

/-- The `{case, year, court, citation}` metadata dict of a formatted search
result (lines 121-126); missing keys default to the empty string. -/
structure ResultMeta where
  case : PyVal
  year : PyVal
  court : PyVal
  citation : PyVal
  deriving DecidableEq

/-- One formatted search result (lines 119-128). -/
structure FormattedResult where
  content : PyVal
  metadata : ResultMeta
  similarity_score : Int
  deriving DecidableEq

/-- The response dict of `_execute_search` (lines 130-134). -/
structure SearchResponse where
  results : List FormattedResult
  total_results : Nat
  processing_time : String
  deriving DecidableEq

/-- A match returned by `index.query`: a metadata dict plus a score (scores
are opaque to the claims and modelled as integers). -/
structure QueryMatch where
  metadata : PyDict
  score : Int
  deriving DecidableEq

/-- Result shaping for one match (lines 119-128). -/
def formatMatch (m : QueryMatch) : FormattedResult :=
  { content := dictGetD m.metadata "content" (.s "")
    metadata :=
      { case := dictGetD m.metadata "case" (.s "")
        year := dictGetD m.metadata "year" (.s "")
        court := dictGetD m.metadata "court" (.s "")
        citation := dictGetD m.metadata "citation" (.s "") }
    similarity_score := m.score }

/-- `f"{time.time() - start_time:.2f}s"` (line 133); within one modelled call
the two `time.time()` readings coincide, so the elapsed span is zero. -/
def procTimeStr (elapsed : Int) : String :=
  toString elapsed ++ "s"

/-- The f-string rendering of `top_k` inside the cache key: `None` when the
parameter was omitted. -/
def pyStrOfTopK : Option Int → String
  | none => "None"
  | some k => toString k

/-- `cache_key = f"{query}:{top_k}"` (line 100) — note: the RAW `top_k`, not
the default-resolved value. -/
def cacheKey (query : String) (top_k : Option Int) : String :=
  query ++ ":" ++ pyStrOfTopK top_k

/-- The shared `TTLCache` (line 46), modelled as a timestamped map: an entry
behaves as present while `now < storedAt + ttl` (capacity eviction is not
exercised by the claims).  `cacheLookup` is `cache_key in self.cache` plus
`self.cache[cache_key]`. -/
def cacheLookup (cache : List (String × Int × SearchResponse)) (key : String)
    (now ttl : Int) : Option SearchResponse :=
  match cache.find? (fun e => e.1 == key) with
  | some (_, t, r) => if now < t + ttl then some r else none
  | none => none

/-- `self.cache[cache_key] = response` (line 137). -/
def cacheStore (cache : List (String × Int × SearchResponse)) (key : String)
    (now : Int) (r : SearchResponse) : List (String × Int × SearchResponse) :=
  if cache.any (fun e => e.1 == key) then
    cache.map (fun e => if e.1 == key then (key, now, r) else e)
  else cache ++ [(key, now, r)]

/-- The mutable state of the search path that the claims observe: the cache
plus counters of the embedding calls and vector-store query calls performed. -/
structure SearchState where
  cache : List (String × Int × SearchResponse)
  embedCalls : Nat
  queryCalls : Nat
  deriving DecidableEq

/-- `top_k or self.config.DEFAULT_TOP_K` (line 112): the Python `or` takes
the right operand exactly when `top_k` is falsy (`None` or `0`); config.py
defines `MAX_SEARCH_RESULTS` but NO `DEFAULT_TOP_K` attribute, so the right
operand raises `AttributeError`. -/
def resolveTopK : Option Int → Except PyErr Int
  | some k =>
    if k == 0 then .error (.attributeError "type object Config has no attribute DEFAULT_TOP_K")
    else .ok k
  | none => .error (.attributeError "type object Config has no attribute DEFAULT_TOP_K")

/-- `_execute_search` (lines 95-142): check the cache FIRST (lines 99-103,
before any embedding or network work); on a miss embed the query, resolve
`top_k`, query the store, shape the results, cache the response under the
raw-keyed `cache_key`, and return it; any exception inside the try is logged
and re-raised (lines 140-142), leaving no cache entry. -/
def execute_search (ttl : Int) (embed : String → Except PyErr (List Int))
    (storeQuery : List Int → Int → Except PyErr (List QueryMatch))
    (now : Int) (query : String) (top_k : Option Int) (st : SearchState) :
    Except PyErr SearchResponse × SearchState :=
  let cache_key := cacheKey query top_k
  match cacheLookup st.cache cache_key now ttl with
  | some response => (.ok response, st)
  | none =>
    let st1 : SearchState := { st with embedCalls := st.embedCalls + 1 }
    match embed query with
    | .error e => (.error e, st1)
    | .ok embedding =>
      match resolveTopK top_k with
      | .error e => (.error e, st1)
      | .ok k =>
        let st2 : SearchState := { st1 with queryCalls := st1.queryCalls + 1 }
        match storeQuery embedding k with
        | .error e => (.error e, st2)
        | .ok search_results =>
          let formatted_results := search_results.map formatMatch
          let response : SearchResponse :=
            { results := formatted_results
              total_results := formatted_results.length
              processing_time := procTimeStr 0 }
          (.ok response, { st2 with cache := cacheStore st2.cache cache_key now response })

/-- Health report of `health_check` (lines 144-162). -/
inductive HealthStatus where
  | healthy : Nat → Nat → HealthStatus
  | unhealthy : String → HealthStatus
  deriving DecidableEq

/-- `health_check` (lines 144-162): one live embedding call on "test" — a
falsy (empty) result short-circuits to unhealthy — then one
`describe_index_stats` call; ANY exception is caught and reported as
`{status: "unhealthy", error: str(e)}`; on success the report carries
`len(self.cache)` and the free semaphore slots `self.semaphore._value`.  The
function is total: it never re-raises. -/
def health_check (embed : String → Except PyErr (List Int)) (statsCall : Except PyErr Unit)
    (cache_len : Nat) (semaphore_value : Nat) : HealthStatus :=
  match embed "test" with
  | .error e => .unhealthy (pyErrMsg e)
  | .ok test_embedding =>
    if test_embedding.isEmpty then .unhealthy "Embedding creation failed"
    else
      match statsCall with
      | .error e => .unhealthy (pyErrMsg e)
      | .ok _ => .healthy cache_len semaphore_value

/-!  `POST /search/` (search_routes.py lines 7-18). -/

/-- Python truthiness of the scalar values in a request body. -/
def pyTruthy : PyVal → Bool
  | .s s => !(s == "")
  | .txt t => !t.isEmpty
  | .i n => !(n == 0)
  | .b b => b

/-- An HTTP response body: either `{"error": msg}` or a search response. -/
inductive RouteBody where
  | err : String → RouteBody
  | results : SearchResponse → RouteBody
  deriving DecidableEq

/-- Line 15 as written: `search_service.search(query)` — `SearchService`
defines `create_embedding`, `search_with_timeout`, `_execute_search` and
`health_check`, but NO attribute named `search`, so the attribute access
raises `AttributeError`, caught by the handler at lines 17-18. -/
def serviceSearchAttrCall : Except PyErr SearchResponse :=
  .error (.attributeError "SearchService object has no attribute search")

/-- The `POST /search/` handler (lines 7-18): reject a missing/falsy `query`
with 400; otherwise call `search_service.search(query)` (see
`serviceSearchAttrCall`; the handler never reads `topK` from the body) and
return its result, mapping any exception to a 500 `{"error": str(e)}`. -/
def search_route (body : PyDict) : Nat × RouteBody :=
  match dictGet body "query" with
  | none => (400, .err "No query provided")
  | some q =>
    if pyTruthy q then
      match serviceSearchAttrCall with
      | .ok r => (200, .results r)
      | .error e => (500, .err (pyErrMsg e))
    else (400, .err "No query provided")

/-!  Concrete fixtures used by counterexamples and witnesses. -/

/-- A concrete chunk as produced by chunking a catalogued document. -/
def chunkA : Chunk :=
  { chunk_id := "id-a", content := "alpha text".toList, metadata := [("filename", .s "a.pdf")] }

/-- A second concrete chunk from the same document. -/
def chunkB : Chunk :=
  { chunk_id := "id-b", content := "beta text".toList, metadata := [("filename", .s "a.pdf")] }

/-- A document body of length 2500 for the chunk-layout example. -/
def text2500 : List Char := List.replicate 2500 'a'

/-!  Lemmas about the embedded operations, and the claim theorems. -/

theorem dictGet_set_self (d : PyDict) (k : String) (v : PyVal) :
    dictGet (dictSet d k v) k = some v := by
  unfold dictSet dictGet
  by_cases h : d.any (fun p => p.1 == k)
  · simp only [h, if_true]
    induction d with
    | nil => simp at h
    | cons p t ih =>
      by_cases hp : p.1 == k
      · simp [List.find?, hp]
      · simp only [List.any_cons, hp, Bool.false_or] at h
        simpa [List.find?, hp] using ih h
  · simp only [h, if_false]
    induction d with
    | nil => simp [List.find?]
    | cons p t ih =>
      simp only [List.any_cons, Bool.or_eq_true, not_or] at h
      simp only [List.cons_append, List.find?, h.1]
      exact ih h.2

theorem map_setEntry_of_not_any (t : PyDict) (k : String) (v : PyVal)
    (ht : ¬ (t.any (fun q => q.1 == k)) = true) :
    t.map (fun q => if q.1 == k then (k, v) else q) = t := by
  induction t with
  | nil => rfl
  | cons q u ih =>
    simp only [List.any_cons, Bool.or_eq_true, not_or] at ht
    simp only [List.map_cons, List.cons.injEq]
    exact ⟨by simp [ht.1], ih ht.2⟩

theorem find?_map_setEntry (t : PyDict) (k k' : String) (v : PyVal) (hne : k' ≠ k) :
    (t.map (fun q => if q.1 == k then (k, v) else q)).find? (fun p => p.1 == k')
      = t.find? (fun p => p.1 == k') := by
  induction t with
  | nil => rfl
  | cons q u ih =>
    have hkk' : ¬ ((k, v).1 == k') = true := by simpa using fun hh => hne hh.symm
    by_cases hq : (q.1 == k) = true
    · have hq1 : q.1 = k := by simpa using hq
      have hqk' : ¬ (q.1 == k') = true := by simpa [hq1] using fun hh => hne hh.symm
      rw [List.map_cons, if_pos hq,
        @List.find?_cons_of_neg _ (fun p => p.1 == k') (k, v) _ hkk',
        @List.find?_cons_of_neg _ (fun p => p.1 == k') q _ hqk']
      exact ih
    · rw [List.map_cons, if_neg hq]
      by_cases hq' : (q.1 == k') = true
      · rw [@List.find?_cons_of_pos _ (fun p => p.1 == k') q _ hq',
          @List.find?_cons_of_pos _ (fun p => p.1 == k') q _ hq']
      · rw [@List.find?_cons_of_neg _ (fun p => p.1 == k') q _ hq',
          @List.find?_cons_of_neg _ (fun p => p.1 == k') q _ hq']
        exact ih

theorem dictGet_set_other (d : PyDict) (k k' : String) (v : PyVal) (hne : k' ≠ k) :
    dictGet (dictSet d k v) k' = dictGet d k' := by
  unfold dictSet dictGet
  by_cases h : d.any (fun p => p.1 == k)
  · simp only [h, if_true, find?_map_setEntry d k k' v hne]
  · simp only [h, if_false]
    induction d with
    | nil =>
      have hkk' : ¬ (k == k') = true := by simpa using fun hh => hne hh.symm
      simp [List.find?, hkk']
    | cons p t ih =>
      simp only [List.any_cons, Bool.or_eq_true, not_or] at h
      by_cases hpk' : p.1 == k'
      · simp [List.find?, hpk']
      · simp only [List.cons_append, List.find?, hpk']
        exact ih h.2

theorem sliceBound_le (n : Nat) (i : Int) : sliceBound n i ≤ n := by
  unfold sliceBound
  by_cases h : i < 0
  · simp only [h, if_true]
    omega
  · simp only [h, if_false]
    exact min_le_right _ _

theorem pySlice_length (s : List Char) (a b : Int) :
    (pySlice s a b).length = sliceBound s.length b - sliceBound s.length a := by
  unfold pySlice
  rw [List.length_drop, List.length_take]
  have := sliceBound_le s.length b
  omega

theorem create_chunks_loop_succ (ids : Nat → String) (metadata : PyDict) (text : List Char)
    (cs co fuel start idx : Nat) :
    create_chunks_loop ids metadata text cs co (fuel + 1) start idx =
      if start < text.length then
        ({ chunk_id := ids idx
           content := pySlice text
             (if 0 < start then (start : Int) - (co : Int) else (start : Int))
             ((start + cs : Nat) : Int)
           metadata :=
             dictSet (dictSet (dictSet (dictSet metadata
               "chunk_index" (.i idx))
               "is_first_chunk" (.b (idx == 0)))
               "chunk_start" (.i (if 0 < start then (start : Int) - (co : Int) else (start : Int))))
               "chunk_end" (.i ((start + cs : Nat) : Int)) } : Chunk)
        :: create_chunks_loop ids metadata text cs co fuel (start + cs) (idx + 1)
      else [] := rfl

/-- Unfolding `create_chunks` with the configured sizes (`chunkSize = 1000`,
`overlap = 200`) on any text of length 2500: exactly three chunks, with
back-stepped starts 0, 800 and 1800 (the third start is
`previousEnd - overlap = 2000 - 200`, since the window end is computed before
the back-step). -/
theorem create_chunks_2500_eq (ids : Nat → String) (metadata : PyDict) (text : List Char)
    (h : text.length = 2500) :
    create_chunks ids metadata text 1000 200 =
      [ { chunk_id := ids 0, content := pySlice text 0 1000
          metadata :=
            dictSet (dictSet (dictSet (dictSet metadata
              "chunk_index" (.i 0)) "is_first_chunk" (.b true))
              "chunk_start" (.i 0)) "chunk_end" (.i 1000) },
        { chunk_id := ids 1, content := pySlice text 800 2000
          metadata :=
            dictSet (dictSet (dictSet (dictSet metadata
              "chunk_index" (.i 1)) "is_first_chunk" (.b false))
              "chunk_start" (.i 800)) "chunk_end" (.i 2000) },
        { chunk_id := ids 2, content := pySlice text 1800 3000
          metadata :=
            dictSet (dictSet (dictSet (dictSet metadata
              "chunk_index" (.i 2)) "is_first_chunk" (.b false))
              "chunk_start" (.i 1800)) "chunk_end" (.i 3000) } ] := by
  unfold create_chunks
  rw [h]
  rw [create_chunks_loop_succ, if_pos (by omega : 0 < text.length)]
  rw [show (2500 : Nat) = 2499 + 1 from rfl, create_chunks_loop_succ,
    if_pos (by omega : 0 + 1000 < text.length)]
  rw [show (2499 : Nat) = 2498 + 1 from rfl, create_chunks_loop_succ,
    if_pos (by omega : 0 + 1000 + 1000 < text.length)]
  rw [show (2498 : Nat) = 2497 + 1 from rfl, create_chunks_loop_succ,
    if_neg (by omega : ¬ 0 + 1000 + 1000 + 1000 < text.length)]
  norm_num
  simp

/-- Claim C1: every chunk newly embedded in a batch becomes a vector included
in that batch of the upsert call.  The code violates this: at the failing
input of a batch with TWO newly embedded chunks, `vectors.append(vector)`
(line 94, indented outside the for-loop of line 84) appends only the vector
of the LAST pair, so the vector of the first chunk is dropped before upsert. -/
theorem upsert_batch_keeps_only_last_vector :
    tryBatch (fun _ => .ok [[1], [2]]) 7 [chunkA, chunkB] [chunkA.content, chunkB.content]
      = .ok [mkVector 7 chunkB [2]]
    ∧ ∀ v ∈ [mkVector 7 chunkB [2]], v.id ≠ chunkA.chunk_id := by
  exact ⟨rfl, by decide⟩

/-- Claim C2: chunks whose id yields a non-empty fetch are skipped and a
re-run upserts zero new vectors.  The code violates this before any fetch
can happen: for any ingestion over at least one chunk, the dedup check at
line 69 calls `check_embedding_status` without its required `index` argument
and raises `TypeError` (outside any try-block), so no chunk is ever skipped —
the run aborts instead.  (Even with that call repaired, line 71 would raise
`KeyError: context`, and `create_chunks` draws fresh `uuid4` ids per run,
line 116, so no second-run id could match the store.) -/
theorem dedup_check_call_raises_type_error :
    process_chunks_to_vectors (fun _ => .ok [[1]]) 0 3 [chunkA]
      = .error (.typeError "check_embedding_status missing 1 required positional argument: index") := rfl

/-- Claim C10: a fetch that raises makes `check_embedding_status` return
`False` (lines 36-41 catch every exception), so the chunk is classified as
not yet embedded — it lands in `new_chunks` (the set the batch embeds and
upserts, lines 68-71) and never in the skipped set; the store failure is
never surfaced (the function totalises it to a `Bool`). -/
theorem fetch_error_treated_as_not_embedded (fetch : String → Except String (List String))
    (e : String) (c : Chunk) (batch : List Chunk)
    (herr : fetch c.chunk_id = .error e) (hmem : c ∈ batch) :
    check_embedding_status fetch c.chunk_id = false
    ∧ c ∈ selectNew (check_embedding_status fetch) batch
    ∧ c ∉ skippedOf (check_embedding_status fetch) batch := by
  have hc : check_embedding_status fetch c.chunk_id = false := by
    simp [check_embedding_status, herr]
  refine ⟨hc, ?_, ?_⟩
  · simp only [selectNew, List.mem_filter, hc]
    exact ⟨hmem, rfl⟩
  · simp [skippedOf, List.mem_filter, hc]

theorem fetch_error_treated_as_not_embedded_witness :
    check_embedding_status (fun _ => .error "connection reset") chunkA.chunk_id = false
    ∧ chunkA ∈ selectNew (check_embedding_status (fun _ => .error "connection reset")) [chunkA]
    ∧ chunkA ∉ skippedOf (check_embedding_status (fun _ => .error "connection reset")) [chunkA] :=
  fetch_error_treated_as_not_embedded (fun _ => .error "connection reset") "connection reset"
    chunkA [chunkA] rfl (by simp)

/-- Claim C5 counterexample: an embedding-batch failure does NOT abort the
run.  Concretely, with `batch_size = 1` and two all-new chunks, an embedding
backend that fails on the first batch and succeeds on the second yields a
normal (non-raising) result that contains the vector of the second batch: the
failure was caught at lines 99-101 and the loop continued. -/
theorem embedding_failure_swallowed_run_continues :
    process_batches
        (fun texts => if texts = [chunkA.content] then .error (.exc "embedding backend down")
          else .ok [[3]])
        (fun _ => false) 0 1 [chunkA, chunkB]
      = [mkVector 0 chunkB [3]]
    ∧ mkVector 0 chunkB [3]
        ∈ process_batches
            (fun texts => if texts = [chunkA.content] then .error (.exc "embedding backend down")
              else .ok [[3]])
            (fun _ => false) 0 1 [chunkA, chunkB] := by
  exact ⟨rfl, by rw [(rfl :
    process_batches
        (fun texts => if texts = [chunkA.content] then .error (.exc "embedding backend down")
          else .ok [[3]])
        (fun _ => false) 0 1 [chunkA, chunkB]
      = [mkVector 0 chunkB [3]])]; exact List.mem_singleton.mpr rfl⟩

/-- Claim C5 (amended): `create_embeddings_batch` re-raises an embedding
failure (lines 53-55), but `process_chunks_to_vectors` catches any exception
of the per-batch try-block at lines 99-101, logs it and CONTINUES with the
next batch: the failed batch merely contributes no vectors, and the failure
is not surfaced to the run.  Shown here for two singleton batches of new
chunks where the first embedding call fails and the second succeeds. -/
theorem embedding_failure_skips_batch_continues
    (embed : List (List Char) → Except PyErr (List (List Int))) (check : String → Bool)
    (now : Int) (c1 c2 : Chunk) (e : PyErr) (em : List Int)
    (h1 : check c1.chunk_id = false) (h2 : check c2.chunk_id = false)
    (hfail : embed [c1.content] = .error e)
    (hok : embed [c2.content] = .ok [em]) :
    process_batches embed check now 1 [c1, c2] = [mkVector now c2 em] := by
  simp [process_batches, batchesOf, batchesOfGo, processBatchesLoop, selectNew,
    tryBatch, create_embeddings_batch, lastVectorOfBatch, h1, h2, hfail, hok]

theorem embedding_failure_skips_batch_continues_witness :
    process_batches
        (fun texts => if texts = [chunkB.content] then .ok [[9]] else .error (.exc "down"))
        (fun _ => false) 5 1 [chunkA, chunkB]
      = [mkVector 5 chunkB [9]] :=
  embedding_failure_skips_batch_continues
    (fun texts => if texts = [chunkB.content] then .ok [[9]] else .error (.exc "down"))
    (fun _ => false) 5 chunkA chunkB (.exc "down") [9] rfl rfl rfl rfl

/-- Claim C6 counterexample: `create_chunks` does not reject
`overlap ≥ chunkSize` — there is no validation and no `ConfigurationError`
anywhere in the repository (exceptions.py defines only `APIException`,
`ValidationError`, `ResourceNotFound`).  With `chunk_size = 2`,
`overlap = 5` on a six-character text it happily produces three chunks
(the loop start advances to the previous end each iteration, so there is no
infinite loop; back-stepped starts go negative and Python slicing applies). -/
theorem overlap_ge_chunk_size_still_produces_chunks :
    create_chunks (fun n => toString n) [] "abcdef".toList 2 5 ≠ []
    ∧ (create_chunks (fun n => toString n) [] "abcdef".toList 2 5).length = 3 := by
  exact ⟨by decide, by decide⟩

/-- Claim C6 (amended): `create_chunks` performs no overlap validation: with
`overlap ≥ chunkSize` it still returns chunks without raising (three chunks
in the concrete example), while empty text yields zero chunks without
error. -/
theorem create_chunks_no_overlap_validation :
    (∀ (ids : Nat → String) (metadata : PyDict) (cs co : Nat),
      create_chunks ids metadata [] cs co = [])
    ∧ (create_chunks (fun n => toString n) [] "abcdef".toList 2 5).length = 3 := by
  refine ⟨fun ids metadata cs co => rfl, by decide⟩

theorem text2500_length : text2500.length = 2500 := by
  unfold text2500
  rw [List.length_replicate]

theorem dictGet_chunk_start (metadata : PyDict) (i f s e : PyVal) :
    dictGet (dictSet (dictSet (dictSet (dictSet metadata
        "chunk_index" i) "is_first_chunk" f) "chunk_start" s) "chunk_end" e)
      "chunk_start" = some s := by
  rw [dictGet_set_other _ _ _ _ (by decide), dictGet_set_self]

theorem dictGet_chunk_index (metadata : PyDict) (i f s e : PyVal) :
    dictGet (dictSet (dictSet (dictSet (dictSet metadata
        "chunk_index" i) "is_first_chunk" f) "chunk_start" s) "chunk_end" e)
      "chunk_index" = some i := by
  rw [dictGet_set_other _ _ _ _ (by decide), dictGet_set_other _ _ _ _ (by decide),
    dictGet_set_other _ _ _ _ (by decide), dictGet_set_self]

theorem dictGet_is_first_chunk (metadata : PyDict) (i f s e : PyVal) :
    dictGet (dictSet (dictSet (dictSet (dictSet metadata
        "chunk_index" i) "is_first_chunk" f) "chunk_start" s) "chunk_end" e)
      "is_first_chunk" = some f := by
  rw [dictGet_set_other _ _ _ _ (by decide), dictGet_set_other _ _ _ _ (by decide),
    dictGet_set_self]

/-- Claim C3 counterexample: on a document of length 2500 with
`chunkSize = 1000`, `overlap = 200`, the chunk starts are NOT
`[0, 800, 1600]` (and not every chunk has length ≤ 1000): the loop computes
`end = start + chunkSize` BEFORE back-stepping, so the actual starts are
`[0, 800, 1800]` and the middle chunk spans `[800, 2000)` — 1200
characters. -/
theorem create_chunks_2500_starts_differ_from_claim :
    ¬ (startsOf (create_chunks (fun n => toString n) [] text2500 1000 200)
        = [some (.i 0), some (.i 800), some (.i 1600)]
      ∧ ∀ c ∈ create_chunks (fun n => toString n) [] text2500 1000 200,
          c.content.length ≤ 1000) := by
  have hs : startsOf (create_chunks (fun n => toString n) [] text2500 1000 200)
      = [some (.i 0), some (.i 800), some (.i 1800)] := by
    rw [create_chunks_2500_eq (fun n => toString n) [] text2500 text2500_length]
    simp [startsOf, dictGet_chunk_start]
  rintro ⟨h1, _⟩
  rw [hs] at h1
  exact absurd h1 (by decide)

/-- Claim C3 (amended): for every text of length 2500 split with
`chunkSize = 1000`, `overlap = 200`, the chunk starts are `[0, 800, 1800]`
(each subsequent start is `previousEnd - overlap`, but the window end is
`previousEnd + chunkSize`, so non-first chunks reach `chunkSize + overlap`
characters), the chunk lengths are `[1000, 1200, 700]` (all ≤ 1200),
`isFirstChunk` is true exactly for the first chunk, and `chunkIndex`
increases strictly from 0. -/
theorem create_chunks_2500_layout (ids : Nat → String) (metadata : PyDict)
    (text : List Char) (h : text.length = 2500) :
    startsOf (create_chunks ids metadata text 1000 200)
      = [some (.i 0), some (.i 800), some (.i 1800)]
    ∧ (create_chunks ids metadata text 1000 200).map (fun c => c.content.length)
      = [1000, 1200, 700]
    ∧ firstFlagsOf (create_chunks ids metadata text 1000 200)
      = [some (.b true), some (.b false), some (.b false)]
    ∧ indicesOf (create_chunks ids metadata text 1000 200)
      = [some (.i 0), some (.i 1), some (.i 2)] := by
  have e := create_chunks_2500_eq ids metadata text h
  refine ⟨?_, ?_, ?_, ?_⟩ <;> rw [e]
  · simp [startsOf, dictGet_chunk_start]
  · simp only [List.map_cons, List.map_nil, pySlice_length, h]
    norm_num [sliceBound]
    omega
  · simp [firstFlagsOf, dictGet_is_first_chunk]
  · simp [indicesOf, dictGet_chunk_index]

theorem create_chunks_2500_layout_witness :
    startsOf (create_chunks (fun n => toString n) [("case", .s "x")] text2500 1000 200)
      = [some (.i 0), some (.i 800), some (.i 1800)]
    ∧ (create_chunks (fun n => toString n) [("case", .s "x")] text2500 1000 200).map
        (fun c => c.content.length) = [1000, 1200, 700]
    ∧ firstFlagsOf (create_chunks (fun n => toString n) [("case", .s "x")] text2500 1000 200)
      = [some (.b true), some (.b false), some (.b false)]
    ∧ indicesOf (create_chunks (fun n => toString n) [("case", .s "x")] text2500 1000 200)
      = [some (.i 0), some (.i 1), some (.i 2)] :=
  create_chunks_2500_layout (fun n => toString n) [("case", .s "x")] text2500
    text2500_length

/-- Claim C4: `POST /search/` with a non-empty query should invoke the search
and return `{results, totalResults, processingTime}`, honoring `topK`.  The
code violates this: the handler calls `search_service.search(query)` but
`SearchService` defines no attribute `search` (its method is
`search_with_timeout`), so EVERY well-formed request is answered with
HTTP 500 and an error body; the handler also never reads `topK` from the
request body. -/
theorem search_route_valid_query_returns_500 :
    search_route [("query", .s "breach of contract"), ("topK", .i 3)]
      = (500, .err "SearchService object has no attribute search") := rfl

/-- Claim C8 counterexample: the claim says that when neither the embedding
call nor the index-stats call raises, `health_check` returns healthy with the
cache size and free slots.  But line 149 also treats a falsy (empty)
embedding as unhealthy: with an embedding call that SUCCEEDS with `[]` and
index stats that succeed, the result is unhealthy, not `healthy 0 5`. -/
theorem health_check_empty_embedding_unhealthy :
    health_check (fun _ => .ok []) (.ok ()) 0 5 = .unhealthy "Embedding creation failed"
    ∧ health_check (fun _ => .ok []) (.ok ()) 0 5 ≠ .healthy 0 5 := by
  exact ⟨rfl, by rw [(rfl : health_check (fun _ => .ok []) (.ok ()) 0 5
    = .unhealthy "Embedding creation failed")]; intro hcon; cases hcon⟩

/-- Claim C8 (amended): `health_check` never raises (it is a total function
of its oracles) and returns: `unhealthy str(e)` when the embedding call
raises `e`; `unhealthy "Embedding creation failed"` when the embedding call
returns a falsy (empty) result; `unhealthy str(e)` when the subsequent
index-stats call raises `e`; and otherwise `healthy` carrying `len(cache)`
and the free semaphore slots. -/
theorem health_check_branch_semantics (embed : String → Except PyErr (List Int))
    (stats : Except PyErr Unit) (cache_len semaphore_value : Nat) :
    (∀ e, embed "test" = .error e →
      health_check embed stats cache_len semaphore_value = .unhealthy (pyErrMsg e))
    ∧ (embed "test" = .ok [] →
      health_check embed stats cache_len semaphore_value
        = .unhealthy "Embedding creation failed")
    ∧ (∀ emb e, embed "test" = .ok emb → emb ≠ [] → stats = .error e →
      health_check embed stats cache_len semaphore_value = .unhealthy (pyErrMsg e))
    ∧ (∀ emb, embed "test" = .ok emb → emb ≠ [] → stats = .ok () →
      health_check embed stats cache_len semaphore_value
        = .healthy cache_len semaphore_value) := by
  refine ⟨?_, ?_, ?_, ?_⟩
  · intro e he
    simp [health_check, he]
  · intro he
    simp [health_check, he]
  · intro emb e he hne hs
    simp [health_check, he, hs, List.isEmpty_eq_false_iff_exists_mem.mpr
      (List.exists_mem_of_ne_nil emb hne)]
  · intro emb he hne hs
    simp [health_check, he, hs, List.isEmpty_eq_false_iff_exists_mem.mpr
      (List.exists_mem_of_ne_nil emb hne)]

theorem health_check_branch_semantics_witness :
    health_check (fun _ => .error (.exc "api down")) (.ok ()) 0 0 = .unhealthy "api down"
    ∧ health_check (fun _ => .ok []) (.error (.exc "x")) 1 1
        = .unhealthy "Embedding creation failed"
    ∧ health_check (fun _ => .ok [1]) (.error (.exc "stats down")) 0 0
        = .unhealthy "stats down"
    ∧ health_check (fun _ => .ok [2]) (.ok ()) 4 5 = .healthy 4 5 :=
  ⟨(health_check_branch_semantics (fun _ => .error (.exc "api down")) (.ok ()) 0 0).1
      (.exc "api down") rfl,
    (health_check_branch_semantics (fun _ => .ok []) (.error (.exc "x")) 1 1).2.1 rfl,
    (health_check_branch_semantics (fun _ => .ok [1]) (.error (.exc "stats down")) 0 0).2.2.1
      [1] (.exc "stats down") rfl (by decide) rfl,
    (health_check_branch_semantics (fun _ => .ok [2]) (.ok ()) 4 5).2.2.2
      [2] rfl (by decide) rfl⟩

theorem findStore_self (cache : List (String × Int × SearchResponse)) (key : String)
    (now1 : Int) (r : SearchResponse) :
    (cacheStore cache key now1 r).find? (fun e => e.1 == key) = some (key, now1, r) := by
  unfold cacheStore
  by_cases h : cache.any (fun e => e.1 == key)
  · simp only [h, if_true]
    induction cache with
    | nil => simp at h
    | cons p t ih =>
      by_cases hp : p.1 == key
      · simp [List.find?, hp]
      · simp only [List.any_cons, hp, Bool.false_or] at h
        simpa [List.find?, hp] using ih h
  · simp only [h, if_false]
    induction cache with
    | nil => simp [List.find?]
    | cons p t ih =>
      simp only [List.any_cons, Bool.or_eq_true, not_or] at h
      simp only [List.cons_append, List.find?, h.1]
      exact ih h.2

theorem cacheLookup_store_self (cache : List (String × Int × SearchResponse)) (key : String)
    (now1 now2 ttl : Int) (r : SearchResponse) (h : now2 < now1 + ttl) :
    cacheLookup (cacheStore cache key now1 r) key now2 ttl = some r := by
  unfold cacheLookup
  rw [findStore_self]
  simp [h]

/-- Claim C7 counterexample: the claim quantifies over every `topK`,
including an omitted one.  With `topK = None`, `_execute_search` embeds the
query and THEN evaluates `top_k or self.config.DEFAULT_TOP_K`, which raises
`AttributeError` (config.py defines no `DEFAULT_TOP_K`), so nothing is
cached: a second identical request within the TTL performs the embedding
call AGAIN (two embedding calls in total), and neither call returns a
response. -/
theorem search_topk_none_second_call_reembeds :
    (execute_search 60 (fun _ => .ok [1]) (fun _ _ => .ok []) 1 "q" none
        (execute_search 60 (fun _ => .ok [1]) (fun _ _ => .ok []) 0 "q" none
          ⟨[], 0, 0⟩).2).2.embedCalls = 2
    ∧ (execute_search 60 (fun _ => .ok [1]) (fun _ _ => .ok []) 0 "q" none ⟨[], 0, 0⟩).1
      = .error (.attributeError "type object Config has no attribute DEFAULT_TOP_K") := by
  exact ⟨rfl, rfl⟩

/-- Claim C7 (amended): the cache key is the raw string `f"{query}:{top_k}"`
(NOT the default-resolved `topK`; an omitted `topK` never reaches the cache
because the default lookup raises, see the counterexample).  For a truthy
`topK = k ≠ 0`: if the first call misses the cache, embeds and queries
successfully, then a second identical call within the TTL returns exactly
the first response and leaves the state untouched — the same cache and ZERO
additional embedding or store-query calls, the cache being consulted before
any embedding or network work. -/
theorem search_cache_roundtrip_raw_key (ttl : Int)
    (embed : String → Except PyErr (List Int))
    (storeQuery : List Int → Int → Except PyErr (List QueryMatch))
    (now1 now2 : Int) (q : String) (k : Int) (st : SearchState)
    (emb : List Int) (ms : List QueryMatch)
    (hk : k ≠ 0)
    (hmiss : cacheLookup st.cache (cacheKey q (some k)) now1 ttl = none)
    (hembed : embed q = .ok emb)
    (hstore : storeQuery emb k = .ok ms)
    (httl : now2 < now1 + ttl) :
    (execute_search ttl embed storeQuery now2 q (some k)
        (execute_search ttl embed storeQuery now1 q (some k) st).2).1
      = (execute_search ttl embed storeQuery now1 q (some k) st).1
    ∧ (execute_search ttl embed storeQuery now2 q (some k)
        (execute_search ttl embed storeQuery now1 q (some k) st).2).2
      = (execute_search ttl embed storeQuery now1 q (some k) st).2 := by
  have hk0 : (k == 0) = false := by simpa using hk
  refine ⟨?_, ?_⟩ <;>
    simp [execute_search, hmiss, hembed, hstore, resolveTopK, hk0,
      cacheLookup_store_self _ _ _ _ _ _ httl]

theorem search_cache_roundtrip_raw_key_witness :
    (execute_search 60 (fun _ => .ok [1]) (fun _ _ => .ok []) 1 "q" (some 5)
        (execute_search 60 (fun _ => .ok [1]) (fun _ _ => .ok []) 0 "q" (some 5)
          ⟨[], 0, 0⟩).2).1
      = (execute_search 60 (fun _ => .ok [1]) (fun _ _ => .ok []) 0 "q" (some 5)
          ⟨[], 0, 0⟩).1
    ∧ (execute_search 60 (fun _ => .ok [1]) (fun _ _ => .ok []) 1 "q" (some 5)
        (execute_search 60 (fun _ => .ok [1]) (fun _ _ => .ok []) 0 "q" (some 5)
          ⟨[], 0, 0⟩).2).2
      = (execute_search 60 (fun _ => .ok [1]) (fun _ _ => .ok []) 0 "q" (some 5)
          ⟨[], 0, 0⟩).2 :=
  search_cache_roundtrip_raw_key 60 (fun _ => .ok [1]) (fun _ _ => .ok []) 0 1 "q" 5
    ⟨[], 0, 0⟩ [1] [] (by decide) rfl rfl rfl (by decide)

theorem psd_some_pdf (load_pdf : String → Except String (List Char)) (pdf_dir : String)
    (catalog : List CatalogEntry) (f : String) (d : PyDocument)
    (hpsd : process_single_document load_pdf pdf_dir catalog f = some d) :
    pyEndsWith f ".pdf" = true := by
  by_contra h
  rw [Bool.not_eq_true] at h
  simp [process_single_document, h] at hpsd

theorem psd_filename (load_pdf : String → Except String (List Char)) (pdf_dir : String)
    (catalog : List CatalogEntry) (f : String) (d : PyDocument)
    (hpsd : process_single_document load_pdf pdf_dir catalog f = some d) :
    d.metadata.filename = f := by
  have hpdf := psd_some_pdf load_pdf pdf_dir catalog f d hpsd
  simp only [process_single_document, hpdf, Bool.not_true, Bool.false_eq_true,
    if_false] at hpsd
  cases hfind : catalog.find? (fun m => m.filename == f) with
  | none => simp [hfind] at hpsd
  | some m =>
    have hm := List.find?_some hfind
    cases hload : load_pdf (pdf_dir ++ "/" ++ f) with
    | ok content =>
      simp only [hfind, hload] at hpsd
      cases hpsd
      simpa using hm
    | error e => simp [hfind, hload] at hpsd

theorem psd_none_of_no_catalog (load_pdf : String → Except String (List Char))
    (pdf_dir : String) (catalog : List CatalogEntry) (f : String)
    (hcat : ∀ m ∈ catalog, m.filename ≠ f) :
    process_single_document load_pdf pdf_dir catalog f = none := by
  have hfind : catalog.find? (fun m => m.filename == f) = none := by
    rw [List.find?_eq_none]
    intro m hm
    simpa using hcat m hm
  by_cases hpdf : pyEndsWith f ".pdf" = true
  · simp [process_single_document, hpdf, hfind]
  · rw [Bool.not_eq_true] at hpdf
    simp [process_single_document, hpdf]

theorem psd_none_of_load_error (load_pdf : String → Except String (List Char))
    (pdf_dir : String) (catalog : List CatalogEntry) (f : String) (e : String)
    (he : load_pdf (pdf_dir ++ "/" ++ f) = .error e) :
    process_single_document load_pdf pdf_dir catalog f = none := by
  by_cases hpdf : pyEndsWith f ".pdf" = true
  · cases hfind : catalog.find? (fun m => m.filename == f) with
    | none => simp [process_single_document, hpdf, hfind]
    | some m => simp [process_single_document, hpdf, hfind, he]
  · rw [Bool.not_eq_true] at hpdf
    simp [process_single_document, hpdf]

theorem pdp_cons (load_pdf : String → Except String (List Char)) (pdf_dir : String)
    (catalog : List CatalogEntry) (g : String) (rest : List String) :
    process_documents_parallel load_pdf pdf_dir catalog (g :: rest)
      = (if pyEndsWith g ".pdf" = true
          then (process_single_document load_pdf pdf_dir catalog g).toList else [])
        ++ process_documents_parallel load_pdf pdf_dir catalog rest := by
  unfold process_documents_parallel
  by_cases hpdf : pyEndsWith g ".pdf" = true
  · simp only [List.filter_cons, hpdf, if_true, List.filterMap_cons]
    cases hpsdg : process_single_document load_pdf pdf_dir catalog g with
    | none => simp [hpdf]
    | some d => simp [hpdf]
  · rw [Bool.not_eq_true] at hpdf
    simp [List.filter_cons, hpdf]

theorem pdp_countP_zero (load_pdf : String → Except String (List Char)) (pdf_dir : String)
    (catalog : List CatalogEntry) (f : String) :
    ∀ listing : List String, f ∉ listing →
      (process_documents_parallel load_pdf pdf_dir catalog listing).countP
        (fun doc => doc.metadata.filename == f) = 0 := by
  intro listing
  induction listing with
  | nil => intro _; rfl
  | cons g rest ih =>
    intro hnot
    rw [List.mem_cons, not_or] at hnot
    rw [pdp_cons, List.countP_append, ih hnot.2]
    by_cases hpdf : pyEndsWith g ".pdf" = true
    · rw [if_pos hpdf]
      cases hpsdg : process_single_document load_pdf pdf_dir catalog g with
      | none => simp
      | some d =>
        have hdg := psd_filename load_pdf pdf_dir catalog g d hpsdg
        have hb : (d.metadata.filename == f) = false := by
          rw [hdg]
          exact beq_eq_false_iff_ne.mpr (fun hh => hnot.1 hh.symm)
        simp [List.countP_cons, hb]
    · rw [if_neg hpdf]
      simp

theorem pdp_countP_one (load_pdf : String → Except String (List Char)) (pdf_dir : String)
    (catalog : List CatalogEntry) (f : String) (d : PyDocument)
    (hpsd : process_single_document load_pdf pdf_dir catalog f = some d) :
    ∀ listing : List String, listing.Nodup → f ∈ listing →
      (process_documents_parallel load_pdf pdf_dir catalog listing).countP
        (fun doc => doc.metadata.filename == f) = 1 := by
  intro listing
  induction listing with
  | nil => intro _ hf; simp at hf
  | cons g rest ih =>
    intro hnd hf
    rcases List.nodup_cons.mp hnd with ⟨hg_not, hnd_rest⟩
    rw [pdp_cons, List.countP_append]
    by_cases hgf : g = f
    · subst hgf
      have hpdf := psd_some_pdf load_pdf pdf_dir catalog g d hpsd
      rw [if_pos hpdf, hpsd]
      have hdf := psd_filename load_pdf pdf_dir catalog g d hpsd
      rw [pdp_countP_zero load_pdf pdf_dir catalog g rest hg_not]
      simp [List.countP_cons, hdf]
    · have hf' : f ∈ rest := by
        rcases List.mem_cons.mp hf with h1 | h2
        · exact absurd h1.symm hgf
        · exact h2
      rw [ih hnd_rest hf']
      by_cases hpdf : pyEndsWith g ".pdf" = true
      · rw [if_pos hpdf]
        cases hpsdg : process_single_document load_pdf pdf_dir catalog g with
        | none => simp
        | some d' =>
          have hdg := psd_filename load_pdf pdf_dir catalog g d' hpsdg
          have hb : (d'.metadata.filename == f) = false := by
            rw [hdg]
            exact beq_eq_false_iff_ne.mpr hgf
          simp [List.countP_cons, hb]
      · rw [if_neg hpdf]
        simp

/-- Claim C9: (a) a file with no exact-filename catalog entry is skipped and
never appears in the result set (no partial metadata); (b) a per-document
text-extraction failure drops only that document — the results of the
sibling files are exactly what they would be without it; (c) every
successfully loaded document appears exactly once in the returned set
(directory listings carry no duplicate names). -/
theorem document_loader_skip_isolation_unique
    (load_pdf : String → Except String (List Char)) (pdf_dir : String)
    (catalog : List CatalogEntry) (listing : List String) (f : String) :
    ((∀ m ∈ catalog, m.filename ≠ f) →
      ∀ d ∈ process_documents_parallel load_pdf pdf_dir catalog listing,
        d.metadata.filename ≠ f)
    ∧ ((∃ e, load_pdf (pdf_dir ++ "/" ++ f) = .error e) →
      ∀ l1 l2 : List String,
        process_documents_parallel load_pdf pdf_dir catalog (l1 ++ f :: l2)
          = process_documents_parallel load_pdf pdf_dir catalog l1
            ++ process_documents_parallel load_pdf pdf_dir catalog l2)
    ∧ (listing.Nodup → f ∈ listing →
      ∀ d, process_single_document load_pdf pdf_dir catalog f = some d →
        (process_documents_parallel load_pdf pdf_dir catalog listing).countP
          (fun doc => doc.metadata.filename == f) = 1) := by
  refine ⟨?_, ?_, ?_⟩
  · intro hcat d hd hdf
    unfold process_documents_parallel at hd
    rcases List.mem_filterMap.mp hd with ⟨g, _, hpsd⟩
    have hdg := psd_filename load_pdf pdf_dir catalog g d hpsd
    have hgf : g = f := by rw [← hdg, hdf]
    subst hgf
    rw [psd_none_of_no_catalog load_pdf pdf_dir catalog g hcat] at hpsd
    cases hpsd
  · rintro ⟨e, he⟩ l1 l2
    have hnone := psd_none_of_load_error load_pdf pdf_dir catalog f e he
    unfold process_documents_parallel
    rw [List.filter_append]
    by_cases hpdf : pyEndsWith f ".pdf" = true
    · simp only [List.filter_cons, hpdf, if_true, List.filterMap_append,
        List.filterMap_cons, hnone]
    · rw [Bool.not_eq_true] at hpdf
      simp [List.filter_cons, hpdf, List.filterMap_append]
  · intro hnd hf d hpsd
    exact pdp_countP_one load_pdf pdf_dir catalog f d hpsd listing hnd hf

theorem document_loader_skip_isolation_unique_witness :
    ((∀ d ∈ process_documents_parallel
        (fun p => if p = "docs/b.pdf" then .error "corrupt stream" else .ok ['x'])
        "docs" [⟨"a.pdf", []⟩] ["a.pdf", "b.pdf"],
      d.metadata.filename ≠ "b.pdf")
    ∧ (process_documents_parallel
        (fun p => if p = "docs/b.pdf" then .error "corrupt stream" else .ok ['x'])
        "docs" [⟨"a.pdf", []⟩] (["a.pdf"] ++ "b.pdf" :: [])
      = process_documents_parallel
          (fun p => if p = "docs/b.pdf" then .error "corrupt stream" else .ok ['x'])
          "docs" [⟨"a.pdf", []⟩] ["a.pdf"]
        ++ process_documents_parallel
            (fun p => if p = "docs/b.pdf" then .error "corrupt stream" else .ok ['x'])
            "docs" [⟨"a.pdf", []⟩] [])
    ∧ (process_documents_parallel
        (fun p => if p = "docs/b.pdf" then .error "corrupt stream" else .ok ['x'])
        "docs" [⟨"a.pdf", []⟩] ["a.pdf", "b.pdf"]).countP
          (fun doc => doc.metadata.filename == "a.pdf") = 1) :=
  ⟨(document_loader_skip_isolation_unique
      (fun p => if p = "docs/b.pdf" then .error "corrupt stream" else .ok ['x'])
      "docs" [⟨"a.pdf", []⟩] ["a.pdf", "b.pdf"] "b.pdf").1 (by decide),
    (document_loader_skip_isolation_unique
      (fun p => if p = "docs/b.pdf" then .error "corrupt stream" else .ok ['x'])
      "docs" [⟨"a.pdf", []⟩] ["a.pdf", "b.pdf"] "b.pdf").2.1
      ⟨"corrupt stream", rfl⟩ ["a.pdf"] [],
    (document_loader_skip_isolation_unique
      (fun p => if p = "docs/b.pdf" then .error "corrupt stream" else .ok ['x'])
      "docs" [⟨"a.pdf", []⟩] ["a.pdf", "b.pdf"] "a.pdf").2.2 (by decide) (by decide)
      ⟨['x'], ⟨"a.pdf", []⟩⟩ rfl⟩
